import Mathlib

/-!
Shallow embedding of `src/static/js/map.js` (browser-side hazard-map client)
and proofs about its rendering, loading, click, toggle and upload logic.
-/

namespace HazardMap

/-- JS `a || b` for a possibly-undefined string: `undefined` and `""` are
falsy, any other string is itself. -/
def jsOr (o : Option String) (d : String) : String :=
  match o with
  | some s => if s = "" then d else s
  | none => d

/-- JS template interpolation of a possibly-undefined string property:
`undefined` prints as `"undefined"`. -/
def jsStr (o : Option String) : String :=
  match o with
  | some s => s
  | none => "undefined"

/-- JS truthiness of a possibly-undefined integer-valued property:
`undefined` and `0` are falsy. -/
def jsTruthyNum (o : Option Int) : Bool :=
  match o with
  | some n => n != 0
  | none => false

/-- JS template interpolation of a possibly-undefined number property. -/
def jsNumStr (o : Option Int) : String :=
  match o with
  | some n => toString n
  | none => "undefined"

/-- `hazardType.charAt(0).toUpperCase() + hazardType.slice(1)` from the
popup template in `addGeoJSONLayer`. -/
def capitalize (s : String) : String :=
  match s.data with
  | [] => ""
  | c :: cs => String.mk (c.toUpper :: cs)

/-- Insert a thousands separator before every digit whose 0-based position
from the right is a positive multiple of 3; input is the digit list least
significant first, output is least significant first. -/
def commaRev : List Char → Nat → List Char
  | [], _ => []
  | c :: cs, k =>
    (if k ≠ 0 ∧ k % 3 = 0 then [',', c] else [c]) ++ commaRev cs (k + 1)

/-- `Number.prototype.toLocaleString()` under the default en-US grouping:
digits grouped in threes with commas. -/
def toLocaleString (n : Int) : String :=
  let ds := (toString n.natAbs).data
  (if n < 0 then "-" else "") ++ String.mk (commaRev ds.reverse 0).reverse

/-- A GeoJSON feature as consumed by the client: `properties.susceptibility`
and `properties.shape_area` may be absent, `properties.original_code` is the
source classification string. -/
structure Feature where
  susceptibility : Option String
  original_code : String
  shape_area : Option Int
deriving DecidableEq, Repr

/-- A JS value as produced by a property lookup: `undefined`, a string, or
a value inherited from `Object.prototype` (a function or object, named by
the property that delivered it). -/
inductive JsValue where
  | undefinedV
  | str (s : String)
  | inherited (name : String)
deriving DecidableEq, Repr

/-- The property names of `Object.prototype`: an object literal inherits
these, so bracket lookup with one of them yields a (truthy) function or
object rather than `undefined`. -/
def objectPrototypeKeys : List String :=
  ["constructor", "hasOwnProperty", "isPrototypeOf", "propertyIsEnumerable",
   "toLocaleString", "toString", "valueOf", "__proto__",
   "__defineGetter__", "__defineSetter__", "__lookupGetter__",
   "__lookupSetter__"]

/-- JS truthiness of a general value: `undefined` and `""` are falsy;
functions and objects inherited from `Object.prototype` are truthy. -/
def jsTruthy (v : JsValue) : Bool :=
  match v with
  | .undefinedV => false
  | .str s => s ≠ ""
  | .inherited _ => true

/-- JS `a || b` on general values. -/
def jsOrV (v : JsValue) (d : JsValue) : JsValue :=
  if jsTruthy v then v else d

/-- The `COLORS` object: bracket lookup checks the literal's own keys
first, then walks the prototype chain, so an `Object.prototype` property
name yields the inherited value and only other unknown keys yield
`undefined`. -/
def COLORS (code : String) : JsValue :=
  if code = "LS" then .str "#2ecc71"
  else if code = "MS" then .str "#f39c12"
  else if code = "HS" then .str "#e67e22"
  else if code = "VHS" then .str "#e74c3c"
  else if code ∈ objectPrototypeKeys then .inherited code
  else .undefinedV

/-- `COLORS[feature.properties.susceptibility] || '#95a5a6'` from the
`style` callback of `addGeoJSONLayer`: a missing susceptibility is
coerced to the key `"undefined"` by the bracket lookup, and the JS `||`
falls back to the gray default only when the lookup is falsy. -/
def fillColor (susceptibility : Option String) : JsValue :=
  jsOrV (COLORS (jsStr susceptibility)) (.str "#95a5a6")

/-- The conditional tail of the popup template:
`${feature.properties.shape_area ? `<br>Area: ...` : ''}`. -/
def areaLine (f : Feature) : String :=
  if jsTruthyNum f.shape_area then
    match f.shape_area with
    | some a => "<br>Area: " ++ toLocaleString a ++ " sq units"
    | none => ""
  else ""

/-- The unconditional part of the popup template of `addGeoJSONLayer`. -/
def popupMain (hazardType : String) (f : Feature) : String :=
  "<strong>" ++ capitalize hazardType ++ " Susceptibility</strong><br>" ++
  "Level: " ++ jsStr f.susceptibility ++ "<br>" ++
  "Original Code: " ++ f.original_code

/-- The full popup content bound to a rendered feature. -/
def popupContent (hazardType : String) (f : Feature) : String :=
  popupMain hazardType f ++ areaLine f

/-- One interactive shape produced by `L.geoJSON`'s callbacks: its resolved
style fill color and its bound popup. -/
structure RenderedShape where
  fillColor : JsValue
  popup : String
deriving DecidableEq, Repr

/-- `style` + `onEachFeature` applied to one feature. -/
def renderFeature (hazardType : String) (f : Feature) : RenderedShape :=
  { fillColor := fillColor f.susceptibility
    popup := popupContent hazardType f }

/-- `addGeoJSONLayer(geojsonData, layerGroup, hazardType)`: every feature of
the collection is rendered and added (via `layer.addTo(layerGroup)`) to the
target layer group. -/
def addGeoJSONLayer (geojsonData : List Feature) (layerGroup : List RenderedShape)
    (hazardType : String) : List RenderedShape :=
  layerGroup ++ geojsonData.map (renderFeature hazardType)

/-! ### Hazard Data Loader -/

/-- Outcome of one `fetch` + (when `ok`) `response.json()` round trip:
`thrown` is a rejected fetch (network error); `resp ok body` is a settled
response with HTTP-ok flag `ok` and body `body` (`none` when the body is
not valid JSON, so that `response.json()` throws). -/
inductive FetchOutcome where
  | thrown : FetchOutcome
  | resp (ok : Bool) (body : Option (List Feature)) : FetchOutcome
deriving DecidableEq, Repr

/-- The three layer groups created in `initMap`, holding the rendered
shapes of each hazard dataset. -/
structure LayerStore where
  floodLayer : List RenderedShape
  landslideLayer : List RenderedShape
  liquefactionLayer : List RenderedShape
deriving DecidableEq, Repr

/-- One `await fetch(...); if (response.ok) { await response.json(); add }`
block of `loadHazardData`: `.error ()` is an exception escaping the block
(rejected fetch, or JSON parse failure when the status was ok), `.ok shapes`
is normal completion with the shapes added for this dataset (empty when the
status was not ok, since the block is skipped). -/
def loadOne (out : FetchOutcome) (hazardType : String) :
    Except Unit (List RenderedShape) :=
  match out with
  | .thrown => .error ()
  | .resp true none => .error ()
  | .resp true (some fs) => .ok (addGeoJSONLayer fs [] hazardType)
  | .resp false _ => .ok []

/-- `loadHazardData()`: the three dataset requests are awaited one after the
other inside a single `try` block; an exception in any block aborts the
remaining blocks and is swallowed by the `catch` (only logged). The layer
groups start empty. -/
def loadHazardData (flood landslide liquefaction : FetchOutcome) : LayerStore :=
  match loadOne flood "flood" with
  | .error _ => ⟨[], [], []⟩
  | .ok fl =>
    match loadOne landslide "landslide" with
    | .error _ => ⟨fl, [], []⟩
    | .ok ll =>
      match loadOne liquefaction "liquefaction" with
      | .error _ => ⟨fl, ll, []⟩
      | .ok ql => ⟨fl, ll, ql⟩

/-! ### Point Inspection Flow (map clicks) -/

/-- A geographic coordinate as delivered by the click event. -/
structure Coord where
  lat : ℚ
  lng : ℚ
deriving DecidableEq, Repr

/-- The state touched by `onMapClick`: the markers currently on the map,
the `currentMarker` module variable, and a count of `map.removeLayer`
calls made on markers (to observe that no removal of an absent marker is
ever attempted). -/
structure ClickState where
  markers : List Coord
  currentMarker : Option Coord
  removeCalls : Nat
deriving DecidableEq, Repr

/-- The initial page state: no marker has ever been placed. -/
def initClickState : ClickState := ⟨[], none, 0⟩

/-- `onMapClick(e)`: remove the existing marker only if `currentMarker` is
set, then place exactly one new marker at the clicked coordinate and
remember it. -/
def onMapClick (s : ClickState) (c : Coord) : ClickState :=
  let s1 :=
    match s.currentMarker with
    | some m =>
      { s with markers := s.markers.erase m, removeCalls := s.removeCalls + 1 }
    | none => s
  { s1 with markers := s1.markers ++ [c], currentMarker := some c }

/-! ### Layer Toggle Controller -/

/-- The three hazard layers. -/
inductive HazardKind where
  | flood
  | landslide
  | liquefaction
deriving DecidableEq, Repr

/-- The map state the toggle handlers touch: whether each layer group is on
the map, each group's contents (never touched by toggling), and how many
dataset fetches have been issued. -/
structure HazardMapState where
  floodOnMap : Bool
  landslideOnMap : Bool
  liquefactionOnMap : Bool
  store : LayerStore
  fetchCount : Nat
deriving DecidableEq, Repr

/-- Visibility of one layer. -/
def onMap (s : HazardMapState) (k : HazardKind) : Bool :=
  match k with
  | .flood => s.floodOnMap
  | .landslide => s.landslideOnMap
  | .liquefaction => s.liquefactionOnMap

/-- Contents of one layer group. -/
def layerOf (s : HazardMapState) (k : HazardKind) : List RenderedShape :=
  match k with
  | .flood => s.store.floodLayer
  | .landslide => s.store.landslideLayer
  | .liquefaction => s.store.liquefactionLayer

/-- The `change` handler wired by `setupLayerToggles` for layer `k`:
`if (e.target.checked) map.addLayer(layer) else map.removeLayer(layer)`.
Only that layer's presence on the map changes; no data is touched and no
fetch is issued. -/
def layerToggleChange (s : HazardMapState) (k : HazardKind) (checked : Bool) :
    HazardMapState :=
  match k with
  | .flood => { s with floodOnMap := checked }
  | .landslide => { s with landslideOnMap := checked }
  | .liquefaction => { s with liquefactionOnMap := checked }

/-! ### Dataset Upload Flow -/

/-- Result of the synchronous validation at the top of `handleFileUpload`:
either a blocking `alert` with no network request, or a request carrying
the file and the dataset type. -/
inductive UploadSubmit where
  | rejectNoFile
  | rejectNoType
  | request (file : String) (datasetType : String)
deriving DecidableEq, Repr

/-- The validation prefix of `handleFileUpload(e)`: `fileInput.files[0]` is
absent when the file list is empty, and the `dataset_type` select value is
falsy exactly when it is the empty string. -/
def handleFileUploadValidate (files : List String) (datasetType : String) :
    UploadSubmit :=
  match files.head? with
  | none => .rejectNoFile
  | some f => if datasetType = "" then .rejectNoType else .request f datasetType

/-- Whether the submission issues the `fetch('/api/upload-shapefile/')`. -/
def issuesNetwork (u : UploadSubmit) : Bool :=
  match u with
  | .request _ _ => true
  | _ => false

/-- Whether the submission shows a blocking validation `alert`. -/
def showsAlert (u : UploadSubmit) : Bool :=
  match u with
  | .request _ _ => false
  | _ => true

/-- Body of the upload response once parsed as JSON: both fields are
optional in the model since the handler reads them dynamically. -/
structure RespBody where
  records_created : Option Int
  error : Option String
deriving DecidableEq, Repr

/-- Outcome of the upload `fetch` + `response.json()`: a rejected fetch, or
a settled response with HTTP-ok flag and body (`none` = invalid JSON, so
`response.json()` throws). -/
inductive UploadResponse where
  | thrown : UploadResponse
  | resp (ok : Bool) (body : Option RespBody) : UploadResponse
deriving DecidableEq, Repr

/-- The result-panel state produced by `showUploadResult(success, message)`
plus the reload timer: the progress panel is hidden, the result panel is
shown, and `reloadDelay` is the `setTimeout(location.reload, ...)` delay
when one was scheduled. -/
structure UploadUIState where
  progressHidden : Bool
  resultHidden : Bool
  success : Bool
  message : String
  reloadDelay : Option Nat
deriving DecidableEq, Repr

/-- `showUploadResult(success, message)`: hide progress, reveal the result
panel, and render the message in a success or error style. -/
def showUploadResult (success : Bool) (message : String) : UploadUIState :=
  { progressHidden := true
    resultHidden := false
    success := success
    message := message
    reloadDelay := none }

/-- The response-handling part of `handleFileUpload`: the body is parsed
(`await response.json()`) before `response.ok` is consulted, so an invalid
body falls into the `catch` whatever the status; an ok response reports the
`records_created` count and schedules `location.reload()` after 2000 ms; a
non-ok response reports `result.error || 'Upload failed'`. -/
def handleUploadResponse (r : UploadResponse) : UploadUIState :=
  match r with
  | .thrown => showUploadResult false "Network error occurred"
  | .resp _ none => showUploadResult false "Network error occurred"
  | .resp true (some b) =>
    { showUploadResult true
        ("Successfully processed " ++ jsNumStr b.records_created ++ " records")
      with reloadDelay := some 2000 }
  | .resp false (some b) =>
    showUploadResult false (jsOr b.error "Upload failed")

/-! ## Helper lemmas -/

theorem infix_extend_left {α : Type _} (s : List α) {l t : List α}
    (h : l <:+: t) : l <:+: s ++ t := by
  obtain ⟨a, b, hab⟩ := h
  exact ⟨s ++ a, b, by rw [← hab]; simp [List.append_assoc]⟩

theorem infix_extend_right {α : Type _} {l t : List α} (h : l <:+: t)
    (s : List α) : l <:+: t ++ s := by
  obtain ⟨a, b, hab⟩ := h
  exact ⟨a, b ++ s, by rw [← hab]; simp [List.append_assoc]⟩

/-! ## Theorems about the claims -/

/-- C3 counterexample: the code "toString" is none of LS, MS, HS, VHS, yet
the resolved fill color is not the fallback: the bracket lookup finds the
inherited `Object.prototype.toString`, which is truthy, so the JS `||`
never applies `#95a5a6`. This refutes "for any other code ... the fill
color is the defined fallback color". -/
theorem C3_counterexample :
    ("toString" : String)
        ∉ (["LS", "MS", "HS", "VHS"] : List String) ∧
    fillColor (some "toString") ≠ JsValue.str "#95a5a6" ∧
    fillColor (some "toString") = JsValue.inherited "toString" := by
  exact ⟨by decide, by decide, by decide⟩

/-- C3 amended: each of the four codes LS, MS, HS, VHS resolves to its
entry of the fixed color table; a missing susceptibility or any other
code that does not name an `Object.prototype` property resolves to the
fallback `#95a5a6`; but a code naming an inherited `Object.prototype`
property (constructor, toString, valueOf, hasOwnProperty, ...) resolves
to that truthy inherited value instead of the fallback. Resolution is
still total: every code resolves to some value without failing. -/
theorem C3_fillColor_resolution :
    fillColor (some "LS") = JsValue.str "#2ecc71" ∧
    fillColor (some "MS") = JsValue.str "#f39c12" ∧
    fillColor (some "HS") = JsValue.str "#e67e22" ∧
    fillColor (some "VHS") = JsValue.str "#e74c3c" ∧
    fillColor none = JsValue.str "#95a5a6" ∧
    (∀ c : String,
      c ∉ (["LS", "MS", "HS", "VHS"] : List String) →
      c ∉ objectPrototypeKeys →
      fillColor (some c) = JsValue.str "#95a5a6") ∧
    (∀ c ∈ objectPrototypeKeys, fillColor (some c) = JsValue.inherited c) := by
  refine ⟨by decide, by decide, by decide, by decide, by decide, ?_, ?_⟩
  · intro c h1 h2
    have hLS : c ≠ "LS" := fun h => h1 (by simp [h])
    have hMS : c ≠ "MS" := fun h => h1 (by simp [h])
    have hHS : c ≠ "HS" := fun h => h1 (by simp [h])
    have hVHS : c ≠ "VHS" := fun h => h1 (by simp [h])
    simp [fillColor, jsStr, COLORS, jsOrV, jsTruthy, hLS, hMS, hHS, hVHS, h2]
  · intro c hc
    fin_cases hc <;> decide

/-- Witness for C3: the unknown code "XX" resolves to the fallback color,
while the inherited-property name "toString" resolves to the inherited
value. -/
theorem C3_fillColor_resolution_witness :
    fillColor (some "XX") = JsValue.str "#95a5a6" ∧
    fillColor (some "toString") = JsValue.inherited "toString" :=
  ⟨C3_fillColor_resolution.2.2.2.2.2.1 "XX" (by decide) (by decide),
   C3_fillColor_resolution.2.2.2.2.2.2 "toString" (by decide)⟩

/-- C6: the upload submission issues the network request exactly when both
a file and a non-empty dataset-type selection are present, and shows a
blocking validation alert exactly otherwise. -/
theorem C6_upload_validation :
    ∀ (files : List String) (datasetType : String),
      issuesNetwork (handleFileUploadValidate files datasetType)
        = (!files.isEmpty && !(datasetType == "")) ∧
      showsAlert (handleFileUploadValidate files datasetType)
        = (files.isEmpty || (datasetType == "")) := by
  intro files datasetType
  cases files with
  | nil => simp [handleFileUploadValidate, issuesNetwork, showsAlert]
  | cons f fs =>
    by_cases h : datasetType = "" <;>
      simp [handleFileUploadValidate, issuesNetwork, showsAlert, h]

/-- C8: the very first map click, when no marker has ever been placed,
performs no marker removal (the guard sees `currentMarker` unset) and
places exactly one marker at the clicked coordinate. -/
theorem C8_first_click_safe :
    ∀ c : Coord,
      onMapClick initClickState c
        = { markers := [c], currentMarker := some c, removeCalls := 0 } := by
  intro c
  rfl

/-- C9: a non-OK upload response whose body lacks an `error` field, or
whose `error` field is the empty string, is displayed with the fixed
fallback message "Upload failed" in the failure style. -/
theorem C9_missing_error_fallback :
    ∀ rc : Option Int,
      (handleUploadResponse (.resp false (some ⟨rc, none⟩))).message
        = "Upload failed" ∧
      (handleUploadResponse (.resp false (some ⟨rc, none⟩))).success = false ∧
      (handleUploadResponse (.resp false (some ⟨rc, some ""⟩))).message
        = "Upload failed" ∧
      (handleUploadResponse (.resp false (some ⟨rc, some ""⟩))).success = false := by
  intro rc
  refine ⟨rfl, rfl, ?_, rfl⟩
  simp [handleUploadResponse, showUploadResult, jsOr]

/-- C10: the body is parsed before the status is checked, so a response
with an invalid JSON body — even with an OK status — is reported as the
failure "Network error occurred", never as a success, and schedules no
reload. -/
theorem C10_parse_before_status :
    ∀ ok : Bool,
      (handleUploadResponse (.resp ok none)).message = "Network error occurred" ∧
      (handleUploadResponse (.resp ok none)).success = false ∧
      (handleUploadResponse (.resp ok none)).reloadDelay = none := by
  intro ok
  cases ok <;> exact ⟨rfl, rfl, rfl⟩

/-- C5: an OK upload response with body `{records_created: n}` yields a
visible success panel whose message contains `n` and schedules the full
reload after the fixed 2000 ms delay; a non-OK response with body
`{error: m}` yields a visible failure panel whose message contains `m` and
schedules no reload. -/
theorem C5_upload_result_handling :
    ∀ (n : Int) (err : Option String) (rc : Option Int) (m : String),
      ((handleUploadResponse (.resp true (some ⟨some n, err⟩))).resultHidden = false ∧
       (handleUploadResponse (.resp true (some ⟨some n, err⟩))).success = true ∧
       (toString n).data <:+:
         (handleUploadResponse (.resp true (some ⟨some n, err⟩))).message.data ∧
       (handleUploadResponse (.resp true (some ⟨some n, err⟩))).reloadDelay
         = some 2000) ∧
      ((handleUploadResponse (.resp false (some ⟨rc, some m⟩))).resultHidden = false ∧
       (handleUploadResponse (.resp false (some ⟨rc, some m⟩))).success = false ∧
       m.data <:+:
         (handleUploadResponse (.resp false (some ⟨rc, some m⟩))).message.data ∧
       (handleUploadResponse (.resp false (some ⟨rc, some m⟩))).reloadDelay
         = none) := by
  intro n err rc m
  refine ⟨⟨rfl, rfl, ?_, rfl⟩, ⟨rfl, rfl, ?_, rfl⟩⟩
  · show (toString n).data <:+:
      ("Successfully processed " ++ jsNumStr (some n) ++ " records").data
    simp only [jsNumStr, String.data_append]
    exact List.infix_append _ _ _
  · show m.data <:+: (jsOr (some m) "Upload failed").data
    by_cases h : m = ""
    · subst h
      exact ⟨[], "Upload failed".data, by simp [jsOr]⟩
    · simp [jsOr, h]

/-- After any sequence of clicks the markers on the map are exactly the
remembered `currentMarker`. -/
theorem onMapClick_result (s : ClickState)
    (h : s.markers = s.currentMarker.toList) (c : Coord) :
    (onMapClick s c).markers = [c] ∧ (onMapClick s c).currentMarker = some c := by
  cases hc : s.currentMarker with
  | none =>
    rw [hc] at h
    constructor
    · simp [onMapClick, hc, h]
    · simp [onMapClick, hc]
  | some m =>
    rw [hc] at h
    constructor
    · simp [onMapClick, hc, h]
    · simp [onMapClick, hc]

theorem clickInvariant (cs : List Coord) (s : ClickState)
    (h : s.markers = s.currentMarker.toList) :
    (cs.foldl onMapClick s).markers
      = (cs.foldl onMapClick s).currentMarker.toList := by
  induction cs generalizing s with
  | nil => exact h
  | cons c cs ih =>
    have r := onMapClick_result s h c
    exact ih _ (by rw [r.1, r.2]; rfl)

/-- C4: for every sequence of map clicks ending at coordinate `c`, exactly
one marker is present afterwards, located at `c`, and it is the remembered
current marker: each click removes the previously placed marker and places
exactly one new one. -/
theorem C4_single_marker :
    ∀ (cs : List Coord) (c : Coord),
      ((cs ++ [c]).foldl onMapClick initClickState).markers = [c] ∧
      ((cs ++ [c]).foldl onMapClick initClickState).currentMarker = some c := by
  intro cs c
  rw [List.foldl_append]
  exact onMapClick_result _ (clickInvariant cs initClickState rfl) c

/-- C7: toggling hazard layer `k` to `b` changes only that layer's
visibility: every layer's contents, the whole store and the fetch count
are unchanged, the other layers' visibility is unchanged, and unchecking
then re-checking restores the same shapes with no new fetch. -/
theorem C7_toggle_frame :
    ∀ (s : HazardMapState) (k : HazardKind) (b : Bool) (j : HazardKind),
      layerOf (layerToggleChange s k b) j = layerOf s j ∧
      (layerToggleChange s k b).store = s.store ∧
      (layerToggleChange s k b).fetchCount = s.fetchCount ∧
      onMap (layerToggleChange s k b) j = (if j = k then b else onMap s j) ∧
      layerOf (layerToggleChange (layerToggleChange s k false) k true) j
        = layerOf s j ∧
      onMap (layerToggleChange (layerToggleChange s k false) k true) k = true := by
  intro s k b j
  cases k <;> cases j <;> simp [layerOf, layerToggleChange, onMap]

/-- C1 counterexample: when the flood fetch rejects while the environment
would answer the landslide and liquefaction requests with OK responses
carrying one feature each, the landslide layer ends up empty — even though
rendering that same collection would produce a shape — because the caught
exception aborts the remaining sequential awaits. This refutes "a failure
of any one fetch does not prevent the other two datasets from being
rendered". -/
theorem C1_counterexample :
    (loadHazardData .thrown
        (.resp true (some [⟨some "LS", "F1", none⟩]))
        (.resp true (some [⟨some "LS", "F1", none⟩]))).landslideLayer = [] ∧
    addGeoJSONLayer [⟨some "LS", "F1", none⟩] [] "landslide" ≠ [] := by
  exact ⟨rfl, by simp [addGeoJSONLayer]⟩

/-- C1 amended: the three dataset requests are awaited sequentially inside
one try block. A non-OK response for exactly one dataset leaves only that
layer empty while the other two render fully; but a rejected fetch (or an
OK response whose body fails to parse) aborts the requests that follow it,
leaving their layers empty while the layers loaded before it keep their
shapes. In every case the loader returns normally: the failure is caught
inside it. -/
theorem C1_sequential_loading :
    ∀ (fs ls qs : List Feature) (bF bL bQ : Option (List Feature)),
      loadHazardData (.resp false bF) (.resp true (some ls)) (.resp true (some qs))
        = ⟨[], addGeoJSONLayer ls [] "landslide",
            addGeoJSONLayer qs [] "liquefaction"⟩ ∧
      loadHazardData (.resp true (some fs)) (.resp false bL) (.resp true (some qs))
        = ⟨addGeoJSONLayer fs [] "flood", [],
            addGeoJSONLayer qs [] "liquefaction"⟩ ∧
      loadHazardData (.resp true (some fs)) (.resp true (some ls)) (.resp false bQ)
        = ⟨addGeoJSONLayer fs [] "flood", addGeoJSONLayer ls [] "landslide", []⟩ ∧
      loadHazardData .thrown (.resp true (some ls)) (.resp true (some qs))
        = ⟨[], [], []⟩ ∧
      loadHazardData (.resp true (some fs)) .thrown (.resp true (some qs))
        = ⟨addGeoJSONLayer fs [] "flood", [], []⟩ ∧
      loadHazardData (.resp true (some fs)) (.resp true (some ls)) .thrown
        = ⟨addGeoJSONLayer fs [] "flood", addGeoJSONLayer ls [] "landslide", []⟩ := by
  intro fs ls qs bF bL bQ
  exact ⟨rfl, rfl, rfl, rfl, rfl, rfl⟩

set_option maxRecDepth 8192 in
/-- C2 counterexample: a feature whose `shape_area` property is present
with value `0` gets a popup with no area line, since the template tests JS
truthiness of `shape_area`, not its presence. This refutes "the popup
contains the formatted area line if and only if the feature's shape_area
property is present". -/
theorem C2_counterexample :
    (Feature.mk (some "LS") "F1" (some 0)).shape_area.isSome = true ∧
    ¬ ("Area:".data <:+:
        (popupContent "flood" ⟨some "LS", "F1", some 0⟩).data) := by
  exact ⟨rfl, by decide⟩

/-- C2 amended: rendering a feature collection with N features into a
layer adds exactly N interactive shapes; every feature's shape carries a
popup containing its `original_code` and its (JS-stringified)
susceptibility, built as the fixed main template followed by the area
line; and the area line is present (non-empty) if and only if the
feature's `shape_area` is present and nonzero (JS-truthy). -/
theorem C2_render_features :
    ∀ (fs : List Feature) (layer : List RenderedShape) (ht : String),
      (addGeoJSONLayer fs layer ht).length = layer.length + fs.length ∧
      ∀ f ∈ fs,
        renderFeature ht f ∈ addGeoJSONLayer fs layer ht ∧
        f.original_code.data <:+: (renderFeature ht f).popup.data ∧
        (jsStr f.susceptibility).data <:+: (renderFeature ht f).popup.data ∧
        (renderFeature ht f).popup = popupMain ht f ++ areaLine f ∧
        (areaLine f ≠ "" ↔ jsTruthyNum f.shape_area = true) := by
  intro fs layer ht
  constructor
  · simp [addGeoJSONLayer]
  intro f hf
  refine ⟨?_, ?_, ?_, rfl, ?_⟩
  · exact List.mem_append_right _ (List.mem_map_of_mem _ hf)
  · show f.original_code.data <:+: (popupMain ht f ++ areaLine f).data
    simp only [popupMain, String.data_append]
    exact List.infix_append _ _ _
  · show (jsStr f.susceptibility).data <:+: (popupMain ht f ++ areaLine f).data
    simp only [popupMain, String.data_append]
    exact infix_extend_right (infix_extend_right (infix_extend_right
      (infix_extend_right (( List.suffix_append _ _).isInfix) _) _) _) _
  · cases hsa : f.shape_area with
    | none => simp [areaLine, jsTruthyNum, hsa]
    | some a =>
      by_cases ha : a = 0
      · simp [areaLine, jsTruthyNum, hsa, ha]
      · have harea : areaLine f = "<br>Area: " ++ toLocaleString a ++ " sq units" := by
          simp [areaLine, jsTruthyNum, hsa, ha]
        refine iff_of_true ?_ (by simp [jsTruthyNum, hsa, ha])
        rw [harea]
        intro hEq
        have hl := congrArg String.length hEq
        have h1 : ("<br>Area: ").length = 10 := rfl
        have h2 : (" sq units").length = 9 := rfl
        have h0 : ("" : String).length = 0 := rfl
        simp only [String.length_append, h1, h2, h0] at hl
        omega

/-- Witness for C2: the single-feature collection renders one shape whose
popup contains the code "F7" and the level "LS", with a present area line
for the nonzero area 1234. -/
theorem C2_render_features_witness :
    renderFeature "flood" ⟨some "LS", "F7", some 1234⟩
      ∈ addGeoJSONLayer [⟨some "LS", "F7", some 1234⟩] [] "flood" ∧
    ("F7" : String).data <:+:
      (renderFeature "flood" ⟨some "LS", "F7", some 1234⟩).popup.data ∧
    (jsStr (some "LS")).data <:+:
      (renderFeature "flood" ⟨some "LS", "F7", some 1234⟩).popup.data ∧
    (renderFeature "flood" ⟨some "LS", "F7", some 1234⟩).popup
      = popupMain "flood" ⟨some "LS", "F7", some 1234⟩
          ++ areaLine ⟨some "LS", "F7", some 1234⟩ ∧
    (areaLine ⟨some "LS", "F7", some 1234⟩ ≠ ""
      ↔ jsTruthyNum (some 1234) = true) :=
  (C2_render_features [⟨some "LS", "F7", some 1234⟩] [] "flood").2
    ⟨some "LS", "F7", some 1234⟩ (by simp)

end HazardMap
